import Mathlib

/-!
Verification of the polyhedral loop compiler (impact_2019_8) against its
natural-language specification.

The development shallow-embeds the compiler's Python sources:
* the IR data model (tensors, domains, statements, expressions) — the
  dataclass module itself is absent from the snapshot, so the shapes are
  reconstructed from spec section 3 and from every construction site in
  src (ir_to_isl.py, codegen/ops.py, tests);
* src/ir_to_isl.py — affine serializer, domain and schedule builders,
  dependence analysis (relational model);
* src/codegen/ops.py and codegen/expr.py — C emission for stores,
  reductions and tensor-access linearization;
* src/compiler.py and src/optimize.py — the compile dispatch and the
  tiling path;
* src/isl_ast_converter.py — conversion of the polyhedral library's loop
  AST into the compiler's own AST algebra.

Machine integers are modelled as Int (Python integers are unbounded);
Python float constants are modelled as rationals, with int() truncation
toward zero; fallible code returns Except String.
-/

set_option maxHeartbeats 1000000

namespace PolyComp

/-! ## IR data model (spec section 3, construction sites in src and tests) -/

/-- Shape extent: integer literal or symbolic parameter (spec section 3,
matched by isinstance(extent, Var) / isinstance(extent, IntConst) in
codegen/ops.py). -/
inductive Extent where
  | intConst (value : Int)
  | var (name : String)
deriving DecidableEq, Repr

structure Tensor where
  name : String
  shape : List Extent
deriving DecidableEq, Repr

/-- BinaryOp kinds of the IR expression algebra (spec section 3). -/
inductive IrBinOpKind where
  | Add | Sub | Mul | Div | FloorDiv | Mod | Max | Min
deriving DecidableEq, Repr, Fintype

inductive IrUnOpKind where
  | Neg | Not
deriving DecidableEq, Repr

inductive CmpOp where
  | LT | LE | GT | GE | EQ | NE
deriving DecidableEq, Repr

inductive LogicOp where
  | And | Or
deriving DecidableEq, Repr

inductive AxisKind where
  | spatial | reduce
deriving DecidableEq, Repr

structure Iterator where
  name : String
  kind : AxisKind
deriving DecidableEq, Repr

mutual

inductive IrExpr where
  | intConst (value : Int)
  | floatConst (value : Rat)
  | var (name : String)
  | binOp (op : IrBinOpKind) (lhs rhs : IrExpr)
  | unOp (op : IrUnOpKind) (operand : IrExpr)
  | call (name : String) (args : List IrExpr)
  | load (access : Access)
deriving Repr

inductive Access where
  | mk (tensor : Tensor) (index : List IrExpr)
deriving Repr

end

def Access.tensor : Access → Tensor
  | .mk t _ => t

def Access.index : Access → List IrExpr
  | .mk _ i => i

inductive Constraint where
  | compare (op : CmpOp) (lhs rhs : IrExpr)
  | logical (op : LogicOp) (lhs rhs : Constraint)
deriving Repr

inductive ReduceOpKind where
  | Sum | Prod | Max | Min
deriving DecidableEq, Repr

inductive Stmt where
  | store (access : Access) (value : IrExpr) (predicate : Option Constraint)
  | reduceStore (op : ReduceOpKind) (access : Access) (value : IrExpr)
      (init : Option IrExpr)
  | block (stmts : List Stmt)
deriving Repr

structure Domain where
  params : List String
  iterators : List Iterator
  constraints : List Constraint
deriving Repr

structure Compute where
  name : String
  domain : Domain
  body : Stmt
deriving Repr

structure Schedule where
  loopOrder : List String
deriving DecidableEq, Repr

structure PrimFunc where
  name : String
  params : List Tensor
  computes : List Compute
  schedule : Schedule
deriving Repr

/-- Tile specification (optimization_types.py): band axis index and size. -/
structure Tile where
  axis : Nat
  tileSize : Int
deriving DecidableEq, Repr

/-! ## codegen/ops.py: operator tables and parenthesization -/

/-- _BIN_OP_SYMBOL.get(op, op): symbol for the four C operators, the
Python op string itself otherwise. -/
def binOpSymbol : IrBinOpKind → String
  | .Add => "+"
  | .Sub => "-"
  | .Mul => "*"
  | .Div => "/"
  | .FloorDiv => "FloorDiv"
  | .Mod => "Mod"
  | .Max => "Max"
  | .Min => "Min"

/-- _BIN_OP_PRECEDENCE.get(op, 0). -/
def binOpPrec : IrBinOpKind → Nat
  | .Add => 1
  | .Sub => 1
  | .Mul => 2
  | .Div => 2
  | _ => 0

/-- _needs_parens from codegen/ops.py, line by line. -/
def needsParens (parentOp childOp : IrBinOpKind) (childIsRight : Bool) : Bool :=
  let parentPrec := binOpPrec parentOp
  let childPrec := binOpPrec childOp
  if childPrec < parentPrec then true
  else if parentPrec < childPrec then false
  else if !childIsRight then false
  else if parentOp = .Sub ∨ parentOp = .Div then true
  else parentOp = .Mul ∧ childOp = .Div

/-- The parenthesization condition exactly as claim C6 words it: right
child, child precedence at most the parent's, and parent Sub/Div or
parent Mul with child Div. -/
def claimC6Parens (parentOp childOp : IrBinOpKind) (childIsRight : Bool) : Bool :=
  childIsRight &&
    (binOpPrec childOp ≤ binOpPrec parentOp) &&
    (decide (parentOp = .Sub) || decide (parentOp = .Div) ||
      (decide (parentOp = .Mul) && decide (childOp = .Div)))

/-- The corrected condition: parentheses whenever the child binds strictly
looser, and additionally on right children at equal precedence under
Sub, Div, or Mul-over-Div. -/
def amendedC6Parens (parentOp childOp : IrBinOpKind) (childIsRight : Bool) : Bool :=
  (binOpPrec childOp < binOpPrec parentOp) ||
    ((binOpPrec childOp = binOpPrec parentOp) && childIsRight &&
      (decide (parentOp = .Sub) || decide (parentOp = .Div) ||
        (decide (parentOp = .Mul) && decide (childOp = .Div))))

/-! ## ir_to_isl.py: affine serializer -/

/-- Python sep.join of a list of strings. -/
def pyJoin (sep : String) : List String → String
  | [] => ""
  | [x] => x
  | x :: xs => x ++ sep ++ pyJoin sep xs

/-- Python int() truncation toward zero of a float constant, modelled on
the rational value. -/
def pyTrunc (q : Rat) : Int :=
  q.num.tdiv q.den

mutual

/-- expr_to_isl from ir_to_isl.py. With the closed IR algebra every case
of the Python function returns a string, so the function is total: the
raise statements guard op strings outside the algebra. -/
def exprToIsl : IrExpr → String
  | .intConst v => toString v
  | .floatConst q => toString (pyTrunc q)
  | .var n => n
  | .binOp op lhs rhs =>
    let l := exprToIsl lhs
    let r := exprToIsl rhs
    match op with
    | .Add => "(" ++ l ++ " + " ++ r ++ ")"
    | .Sub => "(" ++ l ++ " - " ++ r ++ ")"
    | .Mul => "(" ++ l ++ " * " ++ r ++ ")"
    | .Div => "floor(" ++ l ++ " / " ++ r ++ ")"
    | .FloorDiv => "floor(" ++ l ++ " / " ++ r ++ ")"
    | .Mod => "(" ++ l ++ " % " ++ r ++ ")"
    | .Max => "max(" ++ l ++ ", " ++ r ++ ")"
    | .Min => "min(" ++ l ++ ", " ++ r ++ ")"
  | .unOp .Neg operand => "-" ++ exprToIsl operand
  | .unOp .Not operand => "not " ++ exprToIsl operand
  | .call n args => n ++ "(" ++ pyJoin ", " (exprToIslList args) ++ ")"
  | .load (.mk t idx) =>
    t.name ++ "[" ++ pyJoin ", " (exprToIslList idx) ++ "]"

def exprToIslList : List IrExpr → List String
  | [] => []
  | e :: es => exprToIsl e :: exprToIslList es

end

/-- Comparison-operator table of constraint_to_isl. -/
def cmpOpToIsl : CmpOp → String
  | .LT => "<"
  | .LE => "<="
  | .GT => ">"
  | .GE => ">="
  | .EQ => "="
  | .NE => "!="

/-- constraint_to_isl from ir_to_isl.py; total for the closed constraint
algebra (the trailing TypeError guards foreign objects). -/
def constraintToIsl : Constraint → String
  | .compare op lhs rhs =>
    exprToIsl lhs ++ " " ++ cmpOpToIsl op ++ " " ++ exprToIsl rhs
  | .logical .And lhs rhs =>
    "(" ++ constraintToIsl lhs ++ " and " ++ constraintToIsl rhs ++ ")"
  | .logical .Or lhs rhs =>
    "(" ++ constraintToIsl lhs ++ " or " ++ constraintToIsl rhs ++ ")"

/-! ## ir_to_isl.py: header, domain and schedule construction -/

/-- _build_header: the params part. -/
def headerParams (d : Domain) : String :=
  if d.params ≠ [] then "[" ++ pyJoin ", " d.params ++ "]" else "[]"

/-- _build_header: the tuple part Name[iterators]. -/
def headerTuple (c : Compute) : String :=
  c.name ++ "[" ++ pyJoin ", " (c.domain.iterators.map (·.name)) ++ "]"

/-- _build_header: the constraints part. -/
def headerConstraints (d : Domain) : String :=
  match d.constraints with
  | [] => "1 = 1"
  | cs => pyJoin " and " (cs.map constraintToIsl)

/-- build_schedule: iterators of the compute, projected out of the global
loop order (the list comprehension over global_loop_order filtering on
membership in the domain's iterator set). -/
def schedDims (loopOrder : List String) (iters : List Iterator) : List String :=
  loopOrder.filter (fun v => iters.any (fun it => it.name == v))

/-- build_schedule: whether the statement-tag dimension is appended. -/
def addStmtId (func : PrimFunc) : Bool :=
  2 ≤ func.computes.length

/-- build_schedule: the destination (time-tuple) string for the compute at
position stmtId. -/
def dstTupleStr (func : PrimFunc) (stmtId : Nat) (c : Compute) : String :=
  let sd := schedDims func.schedule.loopOrder c.domain.iterators
  if addStmtId func then
    "[" ++ pyJoin ", " sd ++ ", " ++ toString stmtId ++ "]"
  else
    "[" ++ pyJoin ", " sd ++ "]"

/-- build_schedule: the full ISL map literal for one compute. -/
def scheduleEntryStr (func : PrimFunc) (stmtId : Nat) (c : Compute) : String :=
  headerParams c.domain ++ " -> \x7b " ++ headerTuple c ++ " -> " ++
    dstTupleStr func stmtId c ++ " : " ++ headerConstraints c.domain ++ " \x7d"

/-- build_schedule as the list of per-compute ISL map literals, in
statement order. -/
def buildScheduleStrs (func : PrimFunc) : List String :=
  (func.computes.enum.map fun (i, c) => scheduleEntryStr func i c)

/-! ## ast_types.py: the compiler's own loop-AST algebra -/

inductive AstExpr where
  | id (name : String)
  | val (value : Int)
  | unaryOp (op : String) (operand : AstExpr)
  | binOp (op : String) (left right : AstExpr)
  | call (args : List AstExpr)
deriving Repr

/-- Loop-AST statements. The dataclasses annotate ForLoop.iterator as Id
and cond as BinOp, but Python does not enforce annotations; the fields
are kept at full expression width and the checks live where the source
performs them (isl_ast_converter.py). -/
inductive AstBody where
  | user (expr : AstExpr)
  | forLoop (iterator : AstExpr) (init : AstExpr) (cond : AstExpr)
      (inc : AstExpr) (body : AstBody)
  | block (stmts : List AstBody)
  | guard (cond : AstExpr) (thenBody : AstBody)
deriving Repr

/-! ## codegen/expr.py -/

/-- OP_MAP.get(op, op). -/
def astOpMap (op : String) : String :=
  match op with
  | "add" => "+"
  | "sub" => "-"
  | "mul" => "*"
  | "div" => "/"
  | "le" => "<="
  | "lt" => "<"
  | "ge" => ">="
  | "gt" => ">"
  | "eq" => "=="
  | o => o

mutual

/-- generate_expr from codegen/expr.py. ast_types.UnaryOp has no branch
in the source and falls into the ValueError raise. -/
def generateExpr : AstExpr → Except String String
  | .id n => .ok n
  | .val v => .ok (toString v)
  | .binOp op l r => do
    let ls ← generateExpr l
    let rs ← generateExpr r
    .ok ("(" ++ ls ++ " " ++ astOpMap op ++ " " ++ rs ++ ")")
  | .call args =>
    if args.isEmpty then .ok "0"
    else do
      let strs ← generateExprList args
      .ok (pyJoin " + " strs)
  | .unaryOp _ _ => .error "Unknown expression type"

def generateExprList : List AstExpr → Except String (List String)
  | [] => .ok []
  | e :: es => do
    let s ← generateExpr e
    let rest ← generateExprList es
    .ok (s :: rest)

end

/-- generate_cond from codegen/expr.py: reads .op, .left, .right of the
condition, so anything but a BinOp fails (AttributeError). -/
def generateCond : AstExpr → Except String String
  | .binOp op l r => do
    let ls ← generateExpr l
    let rs ← generateExpr r
    .ok (ls ++ " " ++ astOpMap op ++ " " ++ rs)
  | _ => .error "AttributeError: cond is not a BinOp"

/-- generate_index_expr from codegen/expr.py. -/
def generateIndexExpr : AstExpr → Except String String
  | .call _ => .error "Index expression must not be a Call"
  | e => generateExpr e

/-- The list comprehension [generate_index_expr(arg) for arg in
index_exprs]: left to right, stopping at the first failure. -/
def generateIndexExprs : List AstExpr → Except String (List String)
  | [] => .ok []
  | e :: es => do
    let s ← generateIndexExpr e
    let rest ← generateIndexExprs es
    .ok (s :: rest)

/-! ## codegen/ops.py: tensor access linearization and statement bodies -/

/-- The membership test of _wrap_if_needed: a single-space substring is
present exactly when a space character occurs. -/
def containsSpace (s : String) : Bool :=
  s.data.any (fun ch => ch == ' ')

/-- _wrap_if_needed: parenthesize when the rendered string contains a
space. -/
def wrapIfNeeded (e : String) : String :=
  if containsSpace e then "(" ++ e ++ ")" else e

/-- Extent rendering inside _format_tensor_access: Var by name, IntConst
in decimal. -/
def extentStr : Extent → String
  | .var n => n
  | .intConst v => toString v

/-- The offset loop of _format_tensor_access over dims 1..n-1: the
indexed Python loop is a left fold pairing shape[dim] with indices[dim]
(the caller has already checked that the two lists have equal length). -/
def linFold : List Extent → List String → String → String
  | d :: ds, i :: ixs, offset =>
    linFold ds ixs ("(" ++ offset ++ "*" ++ extentStr d ++ " + " ++ wrapIfNeeded i ++ ")")
  | _, _, offset => offset

/-- _format_tensor_access from codegen/ops.py. -/
def formatTensorAccess (t : Tensor) (indices : List String) : Except String String :=
  if indices.length ≠ t.shape.length then
    .error ("Index rank mismatch for " ++ t.name ++ ": got " ++
      toString indices.length ++ " indices, expected " ++ toString t.shape.length)
  else
    match indices with
    | [] => .ok t.name
    | [i0] => .ok (t.name ++ "[" ++ i0 ++ "]")
    | i0 :: rest =>
      .ok (t.name ++ "[" ++ linFold (t.shape.drop 1) rest (wrapIfNeeded i0) ++ "]")

/-- Python dict lookup on an insertion-ordered association list: a later
binding for the same key overwrites an earlier one. -/
def pyGet (m : List (String × String)) (k : String) : Option String :=
  m.reverse.lookup k

/-- The axis_to_var dict comprehension in generate_user_stmt: indexes
indices[i] for every iterator position, an IndexError when there are
fewer indices than iterators. -/
def buildAxisToVar (iters : List Iterator) (indices : List String) :
    Except String (List (String × String)) :=
  if iters.length ≤ indices.length then
    .ok ((iters.zip indices).map fun p => (p.1.name, p.2))
  else .error "IndexError: list index out of range"

mutual

/-- _generate_ir_expr from codegen/ops.py. UnaryOp and Call fall into
the trailing ValueError raise. -/
def generateIrExpr (expr : IrExpr) (m : List (String × String))
    (parentOp : Option IrBinOpKind) (childIsRight : Bool) : Except String String :=
  match expr with
  | .intConst v => .ok (toString v)
  | .floatConst q => .ok (toString q)
  | .var n => .ok ((pyGet m n).getD n)
  | .load (.mk t idx) => do
    let inds ← resolveIndices idx m
    formatTensorAccess t inds
  | .binOp op lhs rhs => do
    let left ← generateIrExpr lhs m (some op) false
    let right ← generateIrExpr rhs m (some op) true
    let rendered := left ++ " " ++ binOpSymbol op ++ " " ++ right
    match parentOp with
    | some p => if needsParens p op childIsRight then .ok ("(" ++ rendered ++ ")") else .ok rendered
    | none => .ok rendered
  | .unOp _ _ => .error "Unknown Expr type"
  | .call _ _ => .error "Unknown Expr type"

/-- _resolve_indices from codegen/ops.py (applied to the index list of
the access). -/
def resolveIndices (idx : List IrExpr) (m : List (String × String)) :
    Except String (List String) :=
  match idx with
  | [] => .ok []
  | e :: es => do
    let s ← match e with
      | .var n => .ok ((pyGet m n).getD n)
      | .intConst v => .ok (toString v)
      | e' => generateIrExpr e' m none false
    let rest ← resolveIndices es m
    .ok (s :: rest)

end

/-- The parts loop of _generate_reduction_init_cond: each chosen axis
must have a bound loop variable, and contributes (variable == 0). -/
def initCondParts (m : List (String × String)) : List Iterator → Except String (List String)
  | [] => .ok []
  | it :: rest =>
    match pyGet m it.name with
    | none => .error ("Missing loop variable for iterator '" ++ it.name ++ "'")
    | some v => do
      let tail ← initCondParts m rest
      .ok ((v ++ " == 0") :: tail)

/-- _generate_reduction_init_cond from codegen/ops.py. The emitted guard
compares every chosen axis variable against the literal 0 (the source
comments that the true lower bound should come from the constraints). -/
def reductionInitCond (c : Compute) (targetAccess : Access)
    (m : List (String × String)) : Except String String :=
  let targetVars := targetAccess.index.filterMap fun e =>
    match e with
    | .var n => some n
    | _ => none
  let reduceAxes := c.domain.iterators.filter (fun it => it.kind == .reduce)
  let axes :=
    if reduceAxes.isEmpty then
      c.domain.iterators.filter (fun it => !(targetVars.contains it.name))
    else reduceAxes
  if axes.isEmpty then .ok "1"
  else do
    let parts ← initCondParts m axes
    .ok (pyJoin " && " parts)

/-- generate_user_stmt from codegen/ops.py: call.args supplies the loop
variables (the last k arguments, k the iterator count), the Compute body
selects store or reduce lowering. -/
def generateUserStmt (callArgs : List AstExpr) (c : Compute) : Except String String := do
  let numIndices := c.domain.iterators.length
  let indexExprs :=
    if !callArgs.isEmpty ∧ 0 < numIndices then
      callArgs.drop (callArgs.length - numIndices)
    else []
  let indices ← generateIndexExprs indexExprs
  let m ← buildAxisToVar c.domain.iterators indices
  match c.body with
  | .store (.mk t idx) value _pred => do
    let inds ← resolveIndices idx m
    let targetRef ← formatTensorAccess t inds
    let v ← generateIrExpr value m none false
    .ok (targetRef ++ " = " ++ v ++ ";")
  | .reduceStore op (.mk t idx) value initOpt => do
    let inds ← resolveIndices idx m
    let targetRef ← formatTensorAccess t inds
    let v ← generateIrExpr value m none false
    let lines ← match initOpt with
      | some ini => do
        let cond ← reductionInitCond c (.mk t idx) m
        let initValue ← generateIrExpr ini m none false
        pure ["if (" ++ cond ++ ") " ++ targetRef ++ " = " ++ initValue ++ ";"]
      | none => pure []
    match op with
    | .Sum => .ok (pyJoin "\n" (lines ++ [targetRef ++ " += " ++ v ++ ";"]))
    | .Prod => .ok (pyJoin "\n" (lines ++ [targetRef ++ " *= " ++ v ++ ";"]))
    | .Max => .ok (pyJoin "\n"
        (lines ++ [targetRef ++ " = (" ++ targetRef ++ " > " ++ v ++ ") ? " ++
          targetRef ++ " : " ++ v ++ ";"]))
    | .Min => .ok (pyJoin "\n"
        (lines ++ [targetRef ++ " = (" ++ targetRef ++ " < " ++ v ++ ") ? " ++
          targetRef ++ " : " ++ v ++ ";"]))
  | .block _ => .error "Unknown Stmt type"

/-! ## ir_to_isl.py: dependence analysis (relational model)

ISL union maps are modelled as binary relations; the operations
apply_range, reverse, intersect and lex_lt_union_map are the standard
set-theoretic operations the spec requires of the polyhedral library
(spec section 6). -/

def UMap (α β : Type) : Type := α → β → Prop

def umReverse {α β : Type} (m : UMap α β) : UMap β α :=
  fun b a => m a b

def umApplyRange {α β γ : Type} (m : UMap α β) (n : UMap β γ) : UMap α γ :=
  fun a c => ∃ b, m a b ∧ n b c

def umIntersect {α β : Type} (m n : UMap α β) : UMap α β :=
  fun a b => m a b ∧ n a b

/-- Strict lexicographic comparison of time vectors. -/
def lexLtB : List Int → List Int → Bool
  | _, [] => false
  | [], _ :: _ => true
  | a :: as_, b :: bs => a < b || (a == b && lexLtB as_ bs)

/-- schedule.lex_lt_union_map(schedule): pairs whose scheduled time
vectors are strictly lexicographically ordered. -/
def lexLtUnionMap {α : Type} (s t : UMap α (List Int)) : UMap α α :=
  fun a b => ∃ u v, s a u ∧ t b v ∧ lexLtB u v

/-- compute_raw_dependence from ir_to_isl.py. -/
def computeRawDependence {α μ : Type} (schedule : UMap α (List Int))
    (writeAccess readAccess : UMap α μ) : UMap α α :=
  umIntersect (umApplyRange writeAccess (umReverse readAccess))
    (lexLtUnionMap schedule schedule)

/-- compute_war_dependence from ir_to_isl.py. -/
def computeWarDependence {α μ : Type} (schedule : UMap α (List Int))
    (writeAccess readAccess : UMap α μ) : UMap α α :=
  umIntersect (umApplyRange readAccess (umReverse writeAccess))
    (lexLtUnionMap schedule schedule)

/-- compute_waw_dependence from ir_to_isl.py. -/
def computeWawDependence {α μ : Type} (schedule : UMap α (List Int))
    (writeAccess : UMap α μ) : UMap α α :=
  umIntersect (umApplyRange writeAccess (umReverse writeAccess))
    (lexLtUnionMap schedule schedule)

/-! ## compiler.py and optimize.py: compile dispatch and the tiling path -/

/-- An explicit schedule argument: isl.UnionMap or isl.Schedule, held
abstract (the tag stands for the underlying polyhedral object). -/
inductive IslSched where
  | unionMap (tag : Nat)
  | schedTree (tag : Nat)
deriving DecidableEq, Repr

/-- Exceptions that the code reachable from compile() can raise: its own
ValueError raises, RuntimeError wraps of polyhedral failures
(ir_to_isl.py), and unwrapped isl.Error escapes. IllegalTilingError is a
separate class, raised only by optimize.apply_tiling. -/
inductive PipelineErr where
  | valueError (msg : String)
  | runtimeError (msg : String)
  | islError (msg : String)
deriving DecidableEq, Repr

inductive PyError where
  | pipeline (e : PipelineErr)
  | illegalTiling (msg : String)
deriving DecidableEq, Repr

/-- The tile dict of apply_tiling_to_schedule, with Python dict overwrite
semantics. -/
def tileMapOf (tiles : List Tile) : List (Nat × Int) :=
  tiles.map fun t => (t.axis, t.tileSize)

def pyGetNat (m : List (Nat × Int)) (k : Nat) : Option Int :=
  m.reverse.lookup k

/-- The tile-size vector built by apply_tiling_to_schedule: the requested
size on tiled axes, 1 on every other band member. -/
def tileSizeVector (tiles : List Tile) (nDims : Nat) : List Int :=
  (List.range nDims).map fun i => (pyGetNat (tileMapOf tiles) i).getD 1

/-- The schedule tree as far as apply_tiling_to_schedule inspects it:
whether root.child(0) is a band node and with how many members. -/
inductive SchedTreeShape where
  | banded (nDims : Nat)
  | notBanded
deriving DecidableEq, Repr

/-- apply_tiling_to_schedule from optimize.py: returns the schedule
unchanged when the topmost node is not a band, otherwise applies
band_tile with the size vector. It performs no legality check and can
raise nothing. -/
def applyTilingToSchedule (shape : SchedTreeShape) (tiles : List Tile) :
    Option (List Int) :=
  match shape with
  | .notBanded => none
  | .banded n => some (tileSizeVector tiles n)

/-- Which pipeline _compile_single runs for the given arguments. -/
inductive SinglePath where
  | identityPath
  | optimizedNoTiles
  | optimizedTiled (tiles : List Tile)
  | explicitSchedule (s : IslSched)
deriving DecidableEq, Repr

def compileSinglePath (schedule : Option IslSched) (optimize : Bool)
    (tiles : List Tile) : SinglePath :=
  match schedule with
  | none =>
    if optimize then
      if tiles.isEmpty then .optimizedNoTiles else .optimizedTiled tiles
    else .identityPath
  | some s => .explicitSchedule s

inductive CompileInput where
  | single (f : PrimFunc)
  | funcList (fs : List PrimFunc)

inductive CompileOutcome where
  | singleCompiled (f : PrimFunc) (path : SinglePath)
  | fusedCompiled (fs : List PrimFunc)

/-- _compile_single from compiler.py, at dispatch level: the downstream
pipeline (polyhedral library, AST conversion, C emission) may fail with a
PipelineErr — quantified abstractly — but no code reachable from here
constructs IllegalTilingError. -/
def compileSingle (f : PrimFunc) (schedule : Option IslSched) (optimize : Bool)
    (tiles : List Tile) (pipeErr : Option PipelineErr) :
    Except PyError CompileOutcome :=
  match pipeErr with
  | some e => .error (.pipeline e)
  | none => .ok (.singleCompiled f (compileSinglePath schedule optimize tiles))

/-- compile from compiler.py. -/
def compileDispatch (input : CompileInput) (schedule : Option IslSched)
    (optimize : Bool) (tiles : List Tile) (pipeErr : Option PipelineErr) :
    Except PyError CompileOutcome :=
  match input with
  | .single f => compileSingle f schedule optimize tiles pipeErr
  | .funcList fs =>
    match fs with
    | [] => .error (.pipeline (.valueError "compile() received an empty PrimFunc list"))
    | [f] => compileSingle f schedule optimize tiles pipeErr
    | _ =>
      if schedule ≠ none then
        .error (.pipeline (.valueError "Explicit schedules are not supported for multiple PrimFunc"))
      else if ¬tiles.isEmpty then
        .error (.pipeline (.valueError "Tiling is not supported for multiple PrimFunc"))
      else
        match pipeErr with
        | some e => .error (.pipeline e)
        | none => .ok (.fusedCompiled fs)

/-! ## isl_ast_converter.py -/

/-- isl.ast_expr_op_type values the converter maps. -/
inductive IslOp where
  | le | lt | ge | gt | eq | add | sub | mul | div
  | pdiv_q | pdiv_r | fdiv_q | zdiv_r | min | max | minus
  | and_ | or_ | and_then | or_else | cond | select
  | access | member | address_of | call
deriving DecidableEq, Repr

/-- _OP_TYPE_MAP from isl_ast_converter.py. -/
def opTypeMap : IslOp → String
  | .le => "le"
  | .lt => "lt"
  | .ge => "ge"
  | .gt => "gt"
  | .eq => "eq"
  | .add => "add"
  | .sub => "sub"
  | .mul => "mul"
  | .div => "div"
  | .pdiv_q => "pdiv_q"
  | .pdiv_r => "pdiv_r"
  | .fdiv_q => "fdiv_q"
  | .zdiv_r => "zdiv_r"
  | .min => "min"
  | .max => "max"
  | .minus => "minus"
  | .and_ => "and"
  | .or_ => "or"
  | .and_then => "and_then"
  | .or_else => "or_else"
  | .cond => "cond"
  | .select => "select"
  | .access => "access"
  | .member => "member"
  | .address_of => "address_of"
  | .call => "call"

/-- isl.AstExpr nodes as the converter inspects them. -/
inductive IslAstExpr where
  | id (name : String)
  | int (value : Int)
  | op (t : IslOp) (args : List IslAstExpr)
deriving Repr

/-- isl.AstNode nodes as the converter inspects them. -/
inductive IslNode where
  | for_ (iterator init cond inc : IslAstExpr) (body : IslNode)
  | block (children : List IslNode)
  | user (expr : IslAstExpr)
  | if_ (cond : IslAstExpr) (thenNode : IslNode)
deriving Repr

/-- The left fold of multi-argument min/max into nested binary ops. -/
def foldMinMax (opName : String) (first : AstExpr) (rest : List AstExpr) : AstExpr :=
  rest.foldl (fun acc a => .binOp opName acc a) first

mutual

/-- _convert_expr together with _convert_op_expr from
isl_ast_converter.py. -/
def convertExpr : IslAstExpr → Except String AstExpr
  | .id n => .ok (.id n)
  | .int v => .ok (.val v)
  | .op t args => do
    let opName := opTypeMap t
    let cargs ← convertExprList args
    if t = .call then .ok (.call cargs)
    else
      match cargs with
      | [a] => .ok (.unaryOp opName a)
      | [a, b] => .ok (.binOp opName a b)
      | a :: b :: c :: rest =>
        if opName = "max" ∨ opName = "min" then
          .ok (foldMinMax opName a (b :: c :: rest))
        else
          .error ("Unexpected number of args: " ++ toString cargs.length ++
            " for op " ++ opName)
      | [] =>
        .error ("Unexpected number of args: 0 for op " ++ opName)

def convertExprList : List IslAstExpr → Except String (List AstExpr)
  | [] => .ok []
  | e :: es => do
    let a ← convertExpr e
    let rest ← convertExprList es
    .ok (a :: rest)

end

/-- _convert_user from isl_ast_converter.py. -/
def convertUserNode (e : IslAstExpr) : Except String AstBody := do
  let ce ← convertExpr e
  match ce with
  | .call args => .ok (.user (.call args))
  | _ => .error "user body must contain a Call expression"

mutual

/-- _convert_body from isl_ast_converter.py; the for_ arm is
_convert_for_loop (the iterator must convert to an Id and the condition
to a BinOp; init, increment and body are converted without further
checks) and the if_ arm is _convert_guard. -/
def convertBodyNode : IslNode → Except String AstBody
  | .for_ it ini cond inc body => do
    let iteratorExpr ← convertExpr it
    match iteratorExpr with
    | .id n => do
      let initExpr ← convertExpr ini
      let condExpr ← convertExpr cond
      match condExpr with
      | .binOp o cl cr => do
        let incExpr ← convertExpr inc
        let bodyC ← convertBodyNode body
        .ok (.forLoop (.id n) initExpr (.binOp o cl cr) incExpr bodyC)
      | _ => .error "cond must be a BinOp"
    | _ => .error "iterator must be an Id"
  | .user e => convertUserNode e
  | .block ns => do
    let l ← convertBlockNodes ns
    .ok (.block l)
  | .if_ c t => do
    let condExpr ← convertExpr c
    match condExpr with
    | .binOp o cl cr => do
      let thenB ← convertBodyNode t
      .ok (.guard (.binOp o cl cr) thenB)
    | _ => .error "guard condition must be a BinOp"

def convertBlockNodes : List IslNode → Except String (List AstBody)
  | [] => .ok []
  | n :: ns => do
    let b ← convertBodyNode n
    let rest ← convertBlockNodes ns
    .ok (b :: rest)

end

/-- convert_ast_node from isl_ast_converter.py: the for arm dispatches to
_convert_for_loop (the for_ arm of convertBodyNode); user and if results
are wrapped in a singleton Block at top level. -/
def convertAstNode : IslNode → Except String AstBody
  | .for_ a b c d e => convertBodyNode (.for_ a b c d e)
  | .block ns => do
    let l ← convertBlockNodes ns
    .ok (.block l)
  | .user e => do
    let u ← convertUserNode e
    .ok (.block [u])
  | .if_ c t => do
    let g ← convertBodyNode (.if_ c t)
    .ok (.block [g])

/-! ## Concrete inputs used by witnesses and counterexamples -/

/-- Elementwise add over 0 <= i < 10 (spec scenario S1). -/
def exAddFunc : PrimFunc :=
  ⟨"add_func",
    [⟨"A", [.intConst 10]⟩, ⟨"B", [.intConst 10]⟩, ⟨"C", [.intConst 10]⟩],
    [⟨"S",
      ⟨[], [⟨"i", .spatial⟩],
        [.compare .LE (.intConst 0) (.var "i"),
         .compare .LT (.var "i") (.intConst 10)]⟩,
      .store (.mk ⟨"C", [.intConst 10]⟩ [.var "i"])
        (.binOp .Add (.load (.mk ⟨"A", [.intConst 10]⟩ [.var "i"]))
          (.load (.mk ⟨"B", [.intConst 10]⟩ [.var "i"]))) none⟩],
    ⟨["i"]⟩⟩

/-- The stencil A[i,j] = A[i-1,j+1] over 0 <= i,j < 8: its RAW dependence
has distance (1,-1), so tiling axis 1 alone violates the dependence-sign
test (spec scenario S7). -/
def exStencilFunc : PrimFunc :=
  ⟨"stencil",
    [⟨"A", [.intConst 8, .intConst 8]⟩],
    [⟨"S",
      ⟨[], [⟨"i", .spatial⟩, ⟨"j", .spatial⟩],
        [.compare .LE (.intConst 0) (.var "i"),
         .compare .LT (.var "i") (.intConst 8),
         .compare .LE (.intConst 0) (.var "j"),
         .compare .LT (.var "j") (.intConst 8)]⟩,
      .store (.mk ⟨"A", [.intConst 8, .intConst 8]⟩ [.var "i", .var "j"])
        (.load (.mk ⟨"A", [.intConst 8, .intConst 8]⟩
          [.binOp .Sub (.var "i") (.intConst 1),
           .binOp .Add (.var "j") (.intConst 1)])) none⟩],
    ⟨["i", "j"]⟩⟩

/-- First compute of the fused example: B[i] = A[i] + 1. -/
def exFusedS0 : Compute :=
  ⟨"S0",
    ⟨[], [⟨"i", .spatial⟩],
      [.compare .LE (.intConst 0) (.var "i"),
       .compare .LT (.var "i") (.intConst 10)]⟩,
    .store (.mk ⟨"B", [.intConst 10]⟩ [.var "i"])
      (.binOp .Add (.load (.mk ⟨"A", [.intConst 10]⟩ [.var "i"])) (.intConst 1)) none⟩

/-- Second compute of the fused example: C[i] = B[i] * 2. -/
def exFusedS1 : Compute :=
  ⟨"S1",
    ⟨[], [⟨"i", .spatial⟩],
      [.compare .LE (.intConst 0) (.var "i"),
       .compare .LT (.var "i") (.intConst 10)]⟩,
    .store (.mk ⟨"C", [.intConst 10]⟩ [.var "i"])
      (.binOp .Mul (.load (.mk ⟨"B", [.intConst 10]⟩ [.var "i"])) (.intConst 2)) none⟩

/-- Two chained elementwise computes over the same loop order (spec
scenario S4): a two-Compute function for the statement-tag dimension. -/
def exFusedFunc : PrimFunc :=
  ⟨"kernel",
    [⟨"A", [.intConst 10]⟩, ⟨"B", [.intConst 10]⟩, ⟨"C", [.intConst 10]⟩],
    [exFusedS0, exFusedS1],
    ⟨["i"]⟩⟩

/-- Row-sum with reduce iterator k whose lower bound is 1: the domain
constrains 1 <= k < 8, and the ReduceStore carries an init. -/
def exLowerBoundOneCompute : Compute :=
  ⟨"S",
    ⟨[], [⟨"i", .spatial⟩, ⟨"k", .reduce⟩],
      [.compare .LE (.intConst 0) (.var "i"),
       .compare .LT (.var "i") (.intConst 4),
       .compare .LE (.intConst 1) (.var "k"),
       .compare .LT (.var "k") (.intConst 8)]⟩,
    .reduceStore .Sum (.mk ⟨"C", [.intConst 4]⟩ [.var "i"])
      (.load (.mk ⟨"A", [.intConst 8]⟩ [.var "k"])) (some (.intConst 0))⟩

/-- The linearized subscript exactly as claim C4 words it: the
left-folded row-major polynomial over the remaining (extent, index)
pairs, every index subexpression containing a space parenthesized. -/
def claimedSubscript (dims : List (Extent × String)) (acc : String) : String :=
  dims.foldl
    (fun a di => "(" ++ a ++ "*" ++ extentStr di.1 ++ " + " ++ wrapIfNeeded di.2 ++ ")")
    acc

/-- The update statement emitted for each reduce op (the op table and
the Max/Min ternary forms of generate_user_stmt). -/
def specUpdateLine : ReduceOpKind → String → String → String
  | .Sum, tr, v => tr ++ " += " ++ v ++ ";"
  | .Prod, tr, v => tr ++ " *= " ++ v ++ ";"
  | .Max, tr, v => tr ++ " = (" ++ tr ++ " > " ++ v ++ ") ? " ++ tr ++ " : " ++ v ++ ";"
  | .Min, tr, v => tr ++ " = (" ++ tr ++ " < " ++ v ++ ") ? " ++ tr ++ " : " ++ v ++ ";"

/-- One-point schedule union map used to witness the dependence claim. -/
def exUMapSched : UMap Unit (List Int) := fun _ t => t = [0]

/-- Total access relation on the one-point space. -/
def exUMapAcc : UMap Unit Unit := fun _ _ => True

/-! ## Shared helper lemmas -/

theorem lexLtB_irrefl (l : List Int) : lexLtB l l = false := by
  induction l with
  | nil => rfl
  | cons a as ih => simp [lexLtB, ih]

theorem pyJoin_append_singleton (sep x : String) :
    ∀ (l : List String), l ≠ [] →
      pyJoin sep (l ++ [x]) = pyJoin sep l ++ sep ++ x := by
  intro l
  induction l with
  | nil => intro h; exact absurd rfl h
  | cons a as ih =>
    intro _
    cases as with
    | nil => simp [pyJoin]
    | cons b bs =>
      have ihne : (b :: bs : List String) ≠ [] := by simp
      have ih' := ih ihne
      simp only [List.cons_append] at ih'
      simp only [List.cons_append, pyJoin, List.append_eq]
      rw [ih']
      simp [String.append_assoc]

theorem linFold_eq_claimed :
    ∀ (ds : List Extent) (ixs : List String) (acc : String),
      linFold ds ixs acc = claimedSubscript (ds.zip ixs) acc := by
  intro ds
  induction ds with
  | nil => intro ixs acc; cases ixs <;> rfl
  | cons d ds ih =>
    intro ixs acc
    cases ixs with
    | nil => rfl
    | cons i ixs => simp [linFold, claimedSubscript, ih, List.foldl_cons]

/-! ## Claim C3: dependences live inside the happens-before order -/

/-- C3: each of the three dependence relations is contained in the strict
lexicographic happens-before relation of the schedule, and — for a
single-valued schedule map, as build_schedule produces — contains no
self-pair. -/
theorem C3_dependences_sound {α μ : Type} (S : UMap α (List Int)) (W R : UMap α μ)
    (hS : ∀ a t t', S a t → S a t' → t = t') :
    (∀ a b, computeRawDependence S W R a b → lexLtUnionMap S S a b) ∧
    (∀ a b, computeWarDependence S W R a b → lexLtUnionMap S S a b) ∧
    (∀ a b, computeWawDependence S W a b → lexLtUnionMap S S a b) ∧
    (∀ a, ¬ computeRawDependence S W R a a ∧ ¬ computeWarDependence S W R a a ∧
      ¬ computeWawDependence S W a a) := by
  have hirr : ∀ a, ¬ lexLtUnionMap S S a a := by
    rintro a ⟨u, v, hu, hv, hlt⟩
    rw [hS a u v hu hv, lexLtB_irrefl] at hlt
    exact Bool.false_ne_true hlt
  exact ⟨fun a b h => h.2, fun a b h => h.2, fun a b h => h.2,
    fun a => ⟨fun h => hirr a h.2, fun h => hirr a h.2, fun h => hirr a h.2⟩⟩

/-- C3 witness: on the one-point space with schedule time [0], the RAW
dependence relation has no self-pair. -/
theorem C3_witness :
    (∀ (a : Unit) t t', exUMapSched a t → exUMapSched a t' → t = t') ∧
    ¬ computeRawDependence exUMapSched exUMapAcc exUMapAcc () () := by
  have hS : ∀ (a : Unit) t t', exUMapSched a t → exUMapSched a t' → t = t' :=
    fun _ t t' ht ht' => ht.trans ht'.symm
  exact ⟨hS, ((C3_dependences_sound exUMapSched exUMapAcc exUMapAcc hS).2.2.2 ()).1⟩

/-! ## Claim C4: tensor-access linearization -/

/-- C4: for matching rank, rank 0 emits the bare name, rank 1 emits
name[i0], and rank at least 2 emits the left-folded row-major polynomial
with space-containing index subexpressions parenthesized. -/
theorem C4_linearization (t : Tensor) (indices : List String)
    (h : indices.length = t.shape.length) :
    (indices = [] → formatTensorAccess t indices = .ok t.name) ∧
    (∀ i0, indices = [i0] →
      formatTensorAccess t indices = .ok (t.name ++ "[" ++ i0 ++ "]")) ∧
    (∀ i0 i1 rest, indices = i0 :: i1 :: rest →
      formatTensorAccess t indices =
        .ok (t.name ++ "[" ++
          claimedSubscript ((t.shape.drop 1).zip (i1 :: rest)) (wrapIfNeeded i0) ++ "]")) := by
  have hne : ¬ indices.length ≠ t.shape.length := by simp [h]
  refine ⟨?_, ?_, ?_⟩
  · rintro rfl
    simp only [formatTensorAccess]
    rw [if_neg hne]
  · rintro i0 rfl
    simp only [formatTensorAccess]
    rw [if_neg hne]
  · rintro i0 i1 rest rfl
    simp only [formatTensorAccess]
    rw [if_neg hne]
    rw [linFold_eq_claimed]

/-- C4 witness: the rank-2 access of spec scenario S2 linearizes to
C[(c0*4 + c1)]. -/
theorem C4_witness :
    formatTensorAccess ⟨"C", [.intConst 4, .intConst 4]⟩ ["c0", "c1"] =
      .ok "C[(c0*4 + c1)]" := by
  have h := (C4_linearization ⟨"C", [.intConst 4, .intConst 4]⟩ ["c0", "c1"]
    (by decide)).2.2 "c0" "c1" [] rfl
  rw [h]
  rfl

/-! ## Claim C5: schedule projection and the statement tag -/

/-- C5: the time dimensions of a Compute are the projection of the global
loop order onto the Compute's iterator set — an order-preserving sublist
containing exactly the loop-order names that are iterators of the
Compute — and the rendered time tuple appends the statement index as a
trailing tag dimension exactly when the function has two or more
Computes. -/
theorem C5_schedule_projection (func : PrimFunc) (i : Nat) (c : Compute)
    (hc : func.computes[i]? = some c) :
    (schedDims func.schedule.loopOrder c.domain.iterators).Sublist
      func.schedule.loopOrder ∧
    (∀ v, v ∈ schedDims func.schedule.loopOrder c.domain.iterators ↔
      v ∈ func.schedule.loopOrder ∧ ∃ it ∈ c.domain.iterators, it.name = v) ∧
    (buildScheduleStrs func)[i]? = some (scheduleEntryStr func i c) ∧
    (2 ≤ func.computes.length →
      schedDims func.schedule.loopOrder c.domain.iterators ≠ [] →
      dstTupleStr func i c =
        "[" ++ pyJoin ", "
          (schedDims func.schedule.loopOrder c.domain.iterators ++ [toString i]) ++ "]") ∧
    (func.computes.length < 2 →
      dstTupleStr func i c =
        "[" ++ pyJoin ", " (schedDims func.schedule.loopOrder c.domain.iterators) ++ "]") := by
  refine ⟨List.filter_sublist _, ?_, ?_, ?_, ?_⟩
  · intro v
    simp [schedDims, List.mem_filter, List.any_eq_true, beq_iff_eq]
  · simp [buildScheduleStrs, List.getElem?_map, List.getElem?_enum, hc]
  · intro hge hne
    rw [pyJoin_append_singleton _ _ _ hne]
    simp [dstTupleStr, addStmtId, hge, String.append_assoc]
  · intro hlt
    simp [dstTupleStr, addStmtId, Nat.not_le.mpr hlt]

/-- C5 witness: in the two-Compute function the second compute's time
tuple is [i, 1] — the projected loop order followed by the statement
tag. -/
theorem C5_witness :
    exFusedFunc.computes[1]? = some exFusedS1 ∧
    dstTupleStr exFusedFunc 1 exFusedS1 = "[i, 1]" := by
  have h := (C5_schedule_projection exFusedFunc 1 exFusedS1 rfl).2.2.2.1
    (by decide) (by decide)
  refine ⟨rfl, ?_⟩
  rw [h]
  rfl

/-- Reduction of monadic bind on a successful Except value. -/
theorem exceptBindOk {ε α β : Type} (a : α) (f : α → Except ε β) :
    (Except.ok a >>= f : Except ε β) = f a := rfl

theorem initCondParts_ok (m : List (String × String)) :
    ∀ (axes : List Iterator), (∀ it ∈ axes, (pyGet m it.name).isSome) →
      initCondParts m axes =
        .ok (axes.map fun it => (pyGet m it.name).getD it.name ++ " == 0") := by
  intro axes
  induction axes with
  | nil => intro _; rfl
  | cons a as ih =>
    intro h
    obtain ⟨va, hva⟩ := Option.isSome_iff_exists.mp (h a (List.mem_cons_self a as))
    have ih' := ih (fun it hit => h it (List.mem_cons_of_mem _ hit))
    simp [initCondParts, hva, ih', exceptBindOk]

/-- _generate_reduction_init_cond on a Compute with at least one
reduce-kind iterator, all of whose loop variables are bound: the guard
is the conjunction over the reduce iterators of (loop variable == 0). -/
theorem reductionInitCond_reduce (c : Compute) (acc : Access)
    (m : List (String × String))
    (hred : c.domain.iterators.filter (fun it => it.kind == .reduce) ≠ [])
    (hlook : ∀ it ∈ c.domain.iterators.filter (fun it => it.kind == .reduce),
      (pyGet m it.name).isSome) :
    reductionInitCond c acc m =
      .ok (pyJoin " && "
        ((c.domain.iterators.filter (fun it => it.kind == .reduce)).map
          (fun it => (pyGet m it.name).getD it.name ++ " == 0"))) := by
  have hne : (c.domain.iterators.filter (fun it => it.kind == .reduce)).isEmpty = false := by
    simp [List.isEmpty_iff, hred]
  simp only [reductionInitCond, hne, Bool.false_eq_true, if_false]
  rw [initCondParts_ok m _ hlook]
  rfl

/-! ## Claim C2: reduction init guard -/

/-- C2 counterexample: the Compute's reduce iterator k ranges over
1 <= k < 8 (lower bound 1, recorded in the third domain constraint), yet
the emitted init guard compares k against 0, not against the lower
bound 1 the claim requires. -/
theorem C2_counterexample :
    exLowerBoundOneCompute.domain.constraints[2]? =
      some (.compare .LE (.intConst 1) (.var "k")) ∧
    generateUserStmt [.id "S", .id "i", .id "k"] exLowerBoundOneCompute =
      .ok "if (k == 0) C[i] = 0;\nC[i] += A[k];" ∧
    ("if (k == 0) C[i] = 0;\nC[i] += A[k];" : String) ≠
      "if (k == 1) C[i] = 0;\nC[i] += A[k];" := by
  refine ⟨rfl, rfl, by decide⟩

/-- C2 (amended): for a ReduceStore with init, when the lowering pipeline
succeeds and the Compute has reduce-kind iterators with bound loop
variables, the emitted text is the init assignment guarded by the
conjunction over the reduce iterators of (loop variable == 0) — the code
assumes lower bound 0 rather than reading the bound from the domain —
followed on the next line by the unguarded update statement. -/
theorem C2_reduce_init_guard (c : Compute) (callArgs : List AstExpr)
    (op : ReduceOpKind) (t : Tensor) (idx : List IrExpr) (value ini : IrExpr)
    (indices : List String) (m : List (String × String))
    (inds : List String) (targetRef v initV : String)
    (hbody : c.body = .reduceStore op (.mk t idx) value (some ini))
    (hindex : generateIndexExprs
        (if !callArgs.isEmpty ∧ 0 < c.domain.iterators.length then
          callArgs.drop (callArgs.length - c.domain.iterators.length)
        else []) = .ok indices)
    (hm : buildAxisToVar c.domain.iterators indices = .ok m)
    (hres : resolveIndices idx m = .ok inds)
    (htr : formatTensorAccess t inds = .ok targetRef)
    (hv : generateIrExpr value m none false = .ok v)
    (hini : generateIrExpr ini m none false = .ok initV)
    (hred : c.domain.iterators.filter (fun it => it.kind == .reduce) ≠ [])
    (hlook : ∀ it ∈ c.domain.iterators.filter (fun it => it.kind == .reduce),
      (pyGet m it.name).isSome) :
    generateUserStmt callArgs c =
      .ok ("if (" ++
        pyJoin " && " ((c.domain.iterators.filter (fun it => it.kind == .reduce)).map
          (fun it => (pyGet m it.name).getD it.name ++ " == 0")) ++ ") " ++
        targetRef ++ " = " ++ initV ++ ";" ++ "\n" ++ specUpdateLine op targetRef v) := by
  simp only [generateUserStmt, hindex, exceptBindOk, hm, hbody, hres, htr, hv, hini,
    reductionInitCond_reduce c (.mk t idx) m hred hlook]
  cases op <;> simp [pyJoin, specUpdateLine, String.append_assoc]

/-- C2 witness: the amended statement applied to the concrete row-sum
Compute (iterators i spatial, k reduce; C[i] summed from A[k] with init
0). -/
theorem C2_witness :
    generateUserStmt [.id "S", .id "i", .id "k"] exLowerBoundOneCompute =
      .ok ("if (" ++
        pyJoin " && " ((exLowerBoundOneCompute.domain.iterators.filter
          (fun it => it.kind == .reduce)).map
          (fun it => (pyGet [("i", "i"), ("k", "k")] it.name).getD it.name ++ " == 0")) ++
        ") " ++ "C[i]" ++ " = " ++ "0" ++ ";" ++ "\n" ++
        specUpdateLine .Sum "C[i]" "A[k]") :=
  C2_reduce_init_guard exLowerBoundOneCompute [.id "S", .id "i", .id "k"]
    .Sum ⟨"C", [.intConst 4]⟩ [.var "i"]
    (.load (.mk ⟨"A", [.intConst 8]⟩ [.var "k"])) (.intConst 0)
    ["i", "k"] [("i", "i"), ("k", "k")] ["i"] "C[i]" "A[k]" "0"
    rfl rfl rfl rfl rfl rfl rfl (by decide) (by decide)

/-! ## Claim C9: for-loop conversion and the increment -/

/-- C9 counterexample: a polyhedral for node whose increment is the
negative constant -3, and one whose increment is the non-constant
expression n + 1, are both converted successfully — no check rejects an
increment that is not a positive constant. -/
theorem C9_counterexample :
    convertAstNode (.for_ (.id "c0") (.int 0) (.op .lt [.id "c0", .int 10])
        (.int (-3)) (.user (.op .call [.id "S"]))) =
      .ok (.forLoop (.id "c0") (.val 0) (.binOp "lt" (.id "c0") (.val 10))
        (.val (-3)) (.user (.call [.id "S"]))) ∧
    convertAstNode (.for_ (.id "c0") (.int 0) (.op .lt [.id "c0", .int 10])
        (.op .add [.id "n", .int 1]) (.user (.op .call [.id "S"]))) =
      .ok (.forLoop (.id "c0") (.val 0) (.binOp "lt" (.id "c0") (.val 10))
        (.binOp "add" (.id "n") (.val 1)) (.user (.call [.id "S"]))) :=
  ⟨rfl, rfl⟩

/-- C9 (amended): _convert_for_loop checks only that the iterator
converts to an Id and the condition to a BinOp; the increment is
converted like any expression and stored unchecked, whatever its shape
or sign. -/
theorem C9_converter_unchecked_increment
    (it ini cond inc : IslAstExpr) (body : IslNode)
    (n : String) (iniA : AstExpr) (o : String) (cl cr : AstExpr) (incA : AstExpr)
    (bodyA : AstBody)
    (hit : convertExpr it = .ok (.id n))
    (hini : convertExpr ini = .ok iniA)
    (hcond : convertExpr cond = .ok (.binOp o cl cr))
    (hinc : convertExpr inc = .ok incA)
    (hbody : convertBodyNode body = .ok bodyA) :
    convertAstNode (.for_ it ini cond inc body) =
      .ok (.forLoop (.id n) iniA (.binOp o cl cr) incA bodyA) := by
  simp only [convertAstNode, convertBodyNode, hit, hini, hcond, hinc, hbody, exceptBindOk]

/-- C9 witness: a well-formed for node (increment 1) converts through
the unchecked path. -/
theorem C9_witness :
    convertAstNode (.for_ (.id "c0") (.int 0) (.op .le [.id "c0", .int 9])
        (.int 1) (.user (.op .call [.id "S"]))) =
      .ok (.forLoop (.id "c0") (.val 0) (.binOp "le" (.id "c0") (.val 9))
        (.val 1) (.user (.call [.id "S"]))) :=
  C9_converter_unchecked_increment _ _ _ _ _ "c0" (.val 0) "le" (.id "c0") (.val 9)
    (.val 1) (.user (.call [.id "S"])) rfl rfl rfl rfl rfl

/-! ## Claim C6: precedence-aware parenthesization -/

/-- C6 counterexample: _needs_parens also parenthesizes a left child of
strictly lower precedence (and a right child of strictly lower
precedence), while the claim's condition predicts no parentheses in
either case: rendering a Mul whose child is an Add. -/
theorem C6_counterexample :
    needsParens .Mul .Add false = true ∧
    needsParens .Mul .Add true = true ∧
    claimC6Parens .Mul .Add false = false ∧
    claimC6Parens .Mul .Add true = false := by
  decide

/-- C6 (amended): a child BinaryOp is parenthesized exactly when its
precedence is strictly below the parent's (either side), or the
precedences are equal, the child is the right operand, and the parent is
Sub or Div, or the parent is Mul and the child is Div. -/
theorem C6_parenthesization :
    ∀ (p c : IrBinOpKind) (r : Bool), needsParens p c r = amendedC6Parens p c r := by
  decide

/-! ## Claim C7: float constants in polyhedral constraints -/

/-- C7 counterexample: serializing a constraint containing the float
constant 2.5 does not raise; the constant is truncated to the integer
literal 2 in the polyhedral text. -/
theorem C7_counterexample :
    constraintToIsl (.compare .LT (.floatConst (mkRat 5 2)) (.var "i")) = "2 < i" ∧
    exprToIsl (.floatConst (mkRat 5 2)) = "2" := by
  decide

/-- C7 (amended): a float constant occurring on either side of a
comparison is serialized as its toward-zero truncation; expr_to_isl and
constraint_to_isl are total on the IR algebra and never reject a float. -/
theorem C7_float_truncated :
    ∀ (op : CmpOp) (q : Rat) (e : IrExpr),
    constraintToIsl (.compare op (.floatConst q) e) =
      toString (pyTrunc q) ++ " " ++ cmpOpToIsl op ++ " " ++ exprToIsl e ∧
    constraintToIsl (.compare op e (.floatConst q)) =
      exprToIsl e ++ " " ++ cmpOpToIsl op ++ " " ++ toString (pyTrunc q) := by
  intro op q e
  exact ⟨rfl, rfl⟩

/-! ## Claim C10: a singleton PrimFunc list compiles like the bare PrimFunc -/

/-- C10: compile on a one-element list dispatches to _compile_single with
exactly the same arguments as compile on the bare PrimFunc, before any
of the multi-function schedule/tiles rejections. -/
theorem C10_singleton_list_equiv :
    ∀ (f : PrimFunc) (s : Option IslSched) (o : Bool) (t : List Tile)
      (pe : Option PipelineErr),
    compileDispatch (.funcList [f]) s o t pe = compileDispatch (.single f) s o t pe := by
  intro f s o t pe
  rfl

/-! ## Claim C1: compile and IllegalTiling -/

/-- C1: no execution of compile can produce IllegalTilingError — the
legality check lives only in optimize.apply_tiling, which compile never
calls. At the failing input (the stencil with dependence distance
(1,-1) and tiles on axis 1): with optimize absent the tiles are ignored
and the identity pipeline runs; with optimize=True the tiles are applied
by apply_tiling_to_schedule without a legality check. -/
theorem C1_no_illegal_tiling :
    (∀ (input : CompileInput) (s : Option IslSched) (o : Bool) (t : List Tile)
      (pe : Option PipelineErr) (m : String),
      compileDispatch input s o t pe ≠ .error (.illegalTiling m)) ∧
    compileDispatch (.single exStencilFunc) none false [⟨1, 2⟩] none =
      .ok (.singleCompiled exStencilFunc .identityPath) ∧
    compileDispatch (.single exStencilFunc) none true [⟨1, 2⟩] none =
      .ok (.singleCompiled exStencilFunc (.optimizedTiled [⟨1, 2⟩])) := by
  refine ⟨?_, rfl, rfl⟩
  intro input s o t pe m h
  rcases input with f | fs
  · rcases pe with _ | e <;> simp [compileDispatch, compileSingle] at h
  · rcases fs with _ | ⟨f, _ | ⟨g, rest⟩⟩
    · simp [compileDispatch] at h
    · rcases pe with _ | e <;> simp [compileDispatch, compileSingle] at h
    · simp only [compileDispatch] at h
      rcases pe with _ | e <;> split_ifs at h <;> simp_all

/-! ## Claim C8: list dispatch rejections -/

/-- C8 counterexample: a singleton PrimFunc list with an explicit
schedule (and non-empty tiles) is accepted and dispatched to single
compilation — no error is raised, contradicting the claim for lists of
every length. -/
theorem C8_counterexample :
    compileDispatch (.funcList [exAddFunc]) (some (.unionMap 0)) false [⟨0, 32⟩] none =
      .ok (.singleCompiled exAddFunc (.explicitSchedule (.unionMap 0))) := rfl

/-- C8 (amended): the empty list is always rejected; an explicit
schedule and a non-empty tiles argument are rejected only for lists of
two or more PrimFuncs (the schedule check firing first). -/
theorem C8_list_rejections :
    ∀ (fs : List PrimFunc) (s : Option IslSched) (o : Bool) (t : List Tile)
      (pe : Option PipelineErr),
    (fs = [] → compileDispatch (.funcList fs) s o t pe =
      .error (.pipeline (.valueError "compile() received an empty PrimFunc list"))) ∧
    (2 ≤ fs.length → s ≠ none → compileDispatch (.funcList fs) s o t pe =
      .error (.pipeline (.valueError "Explicit schedules are not supported for multiple PrimFunc"))) ∧
    (2 ≤ fs.length → s = none → t ≠ [] → compileDispatch (.funcList fs) s o t pe =
      .error (.pipeline (.valueError "Tiling is not supported for multiple PrimFunc"))) := by
  intro fs s o t pe
  refine ⟨?_, ?_, ?_⟩
  · rintro rfl
    rfl
  · intro hlen hs
    rcases fs with _ | ⟨f, _ | ⟨g, rest⟩⟩
    · simp at hlen
    · simp at hlen
    · simp [compileDispatch, hs]
  · intro hlen hs ht
    rcases fs with _ | ⟨f, _ | ⟨g, rest⟩⟩
    · simp at hlen
    · simp at hlen
    · subst hs
      simp [compileDispatch, ht]

/-- C8 witness: a two-function list with an explicit schedule is
rejected with the multiple-PrimFunc schedule error. -/
theorem C8_witness :
    compileDispatch (.funcList [exAddFunc, exFusedFunc]) (some (.unionMap 0)) false [] none =
      .error (.pipeline (.valueError "Explicit schedules are not supported for multiple PrimFunc")) :=
  (C8_list_rejections [exAddFunc, exFusedFunc] (some (.unionMap 0)) false [] none).2.1
    (by decide) (by decide)

end PolyComp
